import Mathlib

/-!
# Verification of the Dream Market combat / progression core

Shallow embedding of `dream_market.py` (classes `Player`, `Enemy`, `Inventory`,
`Combat`, the item effect functions and the enemy special moves), followed by
theorems settling the specification claims.

Conventions of the embedding:
* Python ints are `Nat` where the source keeps them non-negative
  (health, stats, xp, level, dice rolls) and `Int` where they may go negative
  (sanity, signed health deltas).
* `random.randint` / `roll` outputs and `random.choice` picks are drawn from an
  explicit oracle stream (`RNG.ints`); `random.random()` outputs are drawn from
  a second stream (`RNG.rats`) of numerators over `2^53`.  Theorems that
  quantify over dice constrain the streams' heads.
* Python dicts that the combat code mutates (`player.flags`,
  `combat.rewrite_effects`) are association lists with dict-style get/set/pop,
  so the source's key-name mismatches are preserved verbatim.
* Python floats only appear in the damage formulas.  Every CPython
  `random.random()` output is exactly `k / 2^53` for some `k < 2^53`, so the
  oracle supplies the numerator `k` and the `int(...)` truncations are
  computed exactly over `Nat` (the model uses the exact rational value of
  the float expression; the literal `1.8` is modelled as `9/5`).
* Core `String` functions that do not reduce in the kernel
  (`trim`, `split`, `lower`, `startswith`, `join`) are re-implemented
  structurally over the character list.
* `print` calls are dropped; fallible paths (the `tokens[0]` IndexError on
  empty input) return `Except.error`; the unbounded `while` loops
  (`gain_xp`, `Combat.run`) take explicit fuel and return `none` on
  exhaustion (= divergence / blocking on input).
-/

namespace DreamMarket

/-- Oracle for the Python `random` module: `ints` feeds `random.randint`
(`roll`) and `random.choice` index picks in call order; `rats` feeds
`random.random()` in call order, each sample given by its numerator `k`
with value `k / 2^53` (the exact form of every CPython float sample). -/
structure RNG where
  ints : List Nat
  rats : List Nat
deriving DecidableEq, Repr

/-- Draw the next integer sample (e.g. a `roll(20)` result). -/
def RNG.nextInt (g : RNG) : Nat × RNG :=
  (g.ints.headD 1, ⟨g.ints.tail, g.rats⟩)

/-- Draw the next `random.random()` sample (its numerator over `2^53`). -/
def RNG.nextRat (g : RNG) : Nat × RNG :=
  (g.rats.headD 0, ⟨g.ints, g.rats.tail⟩)

/-- `int(strength * (1 + random.random() * 0.5))` with the sample
`k / 2^53`: the exact rational value is `strength * (2^54 + k) / 2^54`,
truncated (= floored, everything is non-negative) in `Nat`. -/
def dmg_base (strength k : Nat) : Nat :=
  strength * (2 ^ 54 + k) / 2 ^ 54

/-- ASCII lowercasing of one character (`str.lower` on the game's item and
command names only involves ASCII). -/
def lowerChar (c : Char) : Char :=
  if 65 ≤ c.toNat ∧ c.toNat ≤ 90 then Char.ofNat (c.toNat + 32) else c

/-- `str.lower()`. -/
def strLower (s : String) : String := ⟨s.data.map lowerChar⟩

/-- Whitespace test for `str.strip()` / `str.split()`. -/
def isSpaceChar (c : Char) : Bool :=
  c == ' ' || c == '\t' || c == '\n' || c == '\r'

/-- `str.strip()`. -/
def pyStrip (s : String) : String :=
  ⟨((s.data.dropWhile isSpaceChar).reverse.dropWhile isSpaceChar).reverse⟩

/-- Accumulator loop for `str.split()`. -/
def wordsAux : List Char → List Char → List String
  | [], acc => if acc.isEmpty then [] else [⟨acc.reverse⟩]
  | c :: cs, acc =>
    if isSpaceChar c then
      if acc.isEmpty then wordsAux cs []
      else ⟨acc.reverse⟩ :: wordsAux cs []
    else wordsAux cs (c :: acc)

/-- `str.split()`: split on whitespace runs, dropping empty tokens. -/
def words (s : String) : List String := wordsAux s.data []

/-- `" ".join(tokens)`. -/
def joinSpace : List String → String
  | [] => ""
  | [s] => s
  | s :: rest => s ++ " " ++ joinSpace rest

/-- Prefix test on character lists, for `str.startswith`. -/
def listStarts : List Char → List Char → Bool
  | [], _ => true
  | _ :: _, [] => false
  | a :: as, b :: bs => a == b && listStarts as bs

/-- `s.startswith(pre)`. -/
def strStarts (s pre : String) : Bool := listStarts pre.data s.data

/-- Dict lookup (`d.get(k)` / `d[k]`) on a `Nat`-valued dict. -/
def dictGet (d : List (String × Nat)) (k : String) : Option Nat :=
  (d.find? (fun kv => kv.1 == k)).map (·.2)

/-- Dict membership test (`k in d`). -/
def dictContains (d : List (String × Nat)) (k : String) : Bool :=
  d.any (fun kv => kv.1 == k)

/-- Dict assignment (`d[k] = v`): overwrite if present, else append. -/
def dictSet (d : List (String × Nat)) (k : String) (v : Nat) :
    List (String × Nat) :=
  if dictContains d k then
    d.map (fun kv => if kv.1 == k then (k, v) else kv)
  else d ++ [(k, v)]

/-- Dict removal (`d.pop(k, None)`). -/
def dictPop (d : List (String × Nat)) (k : String) : List (String × Nat) :=
  d.filter (fun kv => kv.1 != k)

/-- Dict lookup on a `Bool`-valued dict (`combat.rewrite_effects`). -/
def bdictGet (d : List (String × Bool)) (k : String) : Option Bool :=
  (d.find? (fun kv => kv.1 == k)).map (·.2)

/-- Dict membership test on a `Bool`-valued dict. -/
def bdictContains (d : List (String × Bool)) (k : String) : Bool :=
  d.any (fun kv => kv.1 == k)

/-- Dict assignment on a `Bool`-valued dict. -/
def bdictSet (d : List (String × Bool)) (k : String) (v : Bool) :
    List (String × Bool) :=
  if bdictContains d k then
    d.map (fun kv => if kv.1 == k then (k, v) else kv)
  else d ++ [(k, v)]

/-- Dict removal on a `Bool`-valued dict. -/
def bdictPop (d : List (String × Bool)) (k : String) : List (String × Bool) :=
  d.filter (fun kv => kv.1 != k)

/-- The `Player` object.  `inventory` stores item names (items are value-like
catalog references distinguished only by name); `flags` models the `flags`
dict restricted to combat use (the only combat-written key is `defend_tmp`,
holding the saved agility); `class_resource` models the `class_resource` dict
as the list of keys present (only `extracted` is ever used, via `in` / `=
True`). -/
structure Player where
  cls : String
  class_name : String
  max_health : Nat
  health : Nat
  sanity : Int
  strength : Nat
  agility : Nat
  magic : Nat
  level : Nat
  xp : Nat
  inventory : List String
  alive : Bool
  flags : List (String × Nat)
  class_resource : List String
deriving DecidableEq, Repr

/-- The `Enemy` object.  `special` stores the keys of the `special` dict of
move-effect functions (`"bellow" ↦ nightmare_bellow`, `"snare" ↦
dream_snare`), in insertion order as `list(special.items())` would produce. -/
structure Enemy where
  name : String
  hp : Nat
  max_hp : Nat
  strength : Nat
  agility : Nat
  magic : Nat
  difficulty : Nat
  special : List String
  alive : Bool
deriving DecidableEq, Repr

/-- `Player.modify_health`: add the signed amount, clamp to
`[0, max_health]`, set `alive = False` when the clamped result is `0`. -/
def Player.modify_health (p : Player) (amt : Int) : Player :=
  let newh : Int := max 0 (min (p.max_health : Int) ((p.health : Int) + amt))
  { p with health := newh.toNat
           alive := if newh.toNat = 0 then false else p.alive }

/-- `Player.modify_sanity`: add the signed amount with no clamp, set
`alive = False` when the result is `≤ -50`. -/
def Player.modify_sanity (p : Player) (amt : Int) : Player :=
  let s := p.sanity + amt
  { p with sanity := s
           alive := if s ≤ -50 then false else p.alive }

/-- Body of the `while self.xp >= 100 * self.level` loop of
`Player.gain_xp`, with fuel; `none` models the Python loop not
terminating (possible only from the unreachable state `level = 0`). -/
def gain_xp_loop (fuel : Nat) (p : Player) : Option Player :=
  match fuel with
  | 0 => if 100 * p.level ≤ p.xp then none else some p
  | fuel + 1 =>
    if 100 * p.level ≤ p.xp then
      gain_xp_loop fuel
        { p with xp := p.xp - 100 * p.level
                 level := p.level + 1
                 max_health := p.max_health + 10
                 strength := p.strength + 1
                 agility := p.agility + 1
                 magic := p.magic + 1 }
    else some p

/-- `Player.gain_xp`: accumulate, then run the level-up loop.  The fuel
`p.xp + amount + 1` exceeds the possible iteration count whenever
`level ≥ 1` (each iteration consumes at least `100` xp). -/
def Player.gain_xp (p : Player) (amount : Nat) : Option Player :=
  gain_xp_loop (p.xp + amount + 1) { p with xp := p.xp + amount }

/-- `Enemy.take_damage`: `hp = max(0, hp - amount)` (Nat subtraction),
set `alive = False` when hp reaches `0`. -/
def Enemy.take_damage (e : Enemy) (amount : Nat) : Enemy :=
  let hp := e.hp - amount
  { e with hp := hp
           alive := if hp = 0 then false else e.alive }

/-- `Enemy.attack_player`: `hit_roll = roll(20) + int(self.agility / 2)`
(the enemy's own AGILITY feeds its accuracy) versus
`evade = roll(20) + int(player.agility / 2)`; on `hit_roll >= evade` deal
`int(strength * (1 + random.random() * 0.5))` damage to the player. -/
def Enemy.attack_player (e : Enemy) (p : Player) (g : RNG) : Player × RNG :=
  let (r1, g) := g.nextInt
  let (r2, g) := g.nextInt
  let hit_roll := r1 + e.agility / 2
  let evade := r2 + p.agility / 2
  if evade ≤ hit_roll then
    let (k, g) := g.nextRat
    let base := dmg_base e.strength k
    (p.modify_health (-(base : Int)), g)
  else (p, g)

/-- `nightmare_bellow`: sanity damage `10 + enemy.magic`. -/
def nightmare_bellow (e : Enemy) (p : Player) : Player :=
  p.modify_sanity (-(10 + (e.magic : Int)))

/-- `dream_snare`: `player.agility = max(1, player.agility - 2)`
(Nat subtraction makes `max 1 (agility - 2)` coincide with the Python
`max(1, agility - 2)` on signed ints). -/
def dream_snare (_e : Enemy) (p : Player) : Player :=
  { p with agility := max 1 (p.agility - 2) }

/-- `Enemy.special_move`: `random.choice(list(self.special.items()))`,
modelled by drawing an oracle integer and indexing modulo the move count,
then applying the chosen effect function.  (With `special = []` the source
returns `None`; here the player is returned unchanged — the only caller
guards on non-emptiness.) -/
def Enemy.special_move (e : Enemy) (p : Player) (g : RNG) : Player × RNG :=
  let (k, g) := g.nextInt
  match e.special.get? (k % e.special.length) with
  | some "bellow" => (nightmare_bellow e p, g)
  | some "snare" => (dream_snare e p, g)
  | _ => (p, g)

/-- `Inventory.remove`: remove and return the first item whose name matches
case-insensitively, or signal `none`. -/
def invRemove (inv : List String) (item_name : String) :
    Option String × List String :=
  match inv with
  | [] => (none, [])
  | it :: rest =>
    if strLower it == strLower item_name then (some it, rest)
    else
      let (r, rest') := invRemove rest item_name
      (r, it :: rest')

/-- `Item.use` dispatched by catalog name: `Dream Elixir` heals 30 HP
(`heal_potion_use`), `Calm Mist` restores 25 sanity (`sanity_potion_use`),
`Fear Shard` deals `20 + int(magic * 0.5)` damage to the enemy
(`fear_shard_use`; in combat the enemy argument is always present);
every other item has no `use_fn` and only narrates. -/
def item_use (name : String) (p : Player) (e : Enemy) : Player × Enemy :=
  if name = "Dream Elixir" then (p.modify_health 30, e)
  else if name = "Calm Mist" then (p.modify_sanity 25, e)
  else if name = "Fear Shard" then (p, e.take_damage (20 + p.magic / 2))
  else (p, e)

/-- Result of one `player_turn`: the Python `None` (turn over) or
`'escaped'`. -/
inductive TurnRes
  | normal
  | escapedRes
deriving DecidableEq, Repr

/-- `Combat.player_attack`: `roll(20) + int(strength/2)` versus
`roll(20) + int(enemy.agility/2)`, hit on `atk_roll >= def_roll`
(ties hit); damage `int(strength * (1 + random.random()*0.5))`, with the
Lucid Magician rolling `roll(100) < 20` for a `*1.8` critical. -/
def Combat.player_attack (p : Player) (e : Enemy) (g : RNG) :
    Player × Enemy × RNG :=
  let (r1, g) := g.nextInt
  let (r2, g) := g.nextInt
  let atk_roll := r1 + p.strength / 2
  let def_roll := r2 + e.agility / 2
  if def_roll ≤ atk_roll then
    let (k, g) := g.nextRat
    let base := dmg_base p.strength k
    if strStarts (strLower p.class_name) "lucid" then
      let (c, g) := g.nextInt
      let base := if c < 20 then base * 9 / 5 else base
      (p, e.take_damage base, g)
    else
      (p, e.take_damage base, g)
  else (p, e, g)

/-- `Combat.player_defend`: save the current agility in
`flags['defend_tmp']` and raise agility by 4. -/
def Combat.player_defend (p : Player) : Player :=
  { p with agility := p.agility + 4
           flags := dictSet p.flags "defend_tmp" p.agility }

/-- `Combat.player_special`, dispatched on the class key.
Note the Lucid Magician branch verbatim from the source: the anti-stacking
guard tests membership of the key `"rewritten"` in `rewrite_effects`,
while the flag that gets set (and later consumed) is `"enemy_miss_next"`. -/
def Combat.player_special (p : Player) (e : Enemy)
    (rw : List (String × Bool)) (g : RNG) :
    Player × Enemy × List (String × Bool) × RNG :=
  if p.cls = "night_surgeon" then
    if p.class_resource.contains "extracted" then (p, e, rw, g)
    else
      let (r, g) := g.nextInt
      if 15 ≤ r + p.magic then
        ({ p with inventory := p.inventory ++ ["Fear Shard"]
                  class_resource := p.class_resource ++ ["extracted"] },
         e, rw, g)
      else (p, e, rw, g)
  else if p.cls = "lucid_magician" then
    if bdictContains rw "rewritten" then (p, e, rw, g)
    else
      let (r, g) := g.nextInt
      if 15 ≤ r + p.magic then (p, e, bdictSet rw "enemy_miss_next" true, g)
      else (p, e, rw, g)
  else if p.cls = "insomniac" then
    if p.sanity - 20 ≤ -50 then (p, e, rw, g)
    else
      let p := p.modify_sanity (-20)
      let dmg := p.strength * 5 / 2
      (p, e.take_damage dmg, rw, g)
  else
    if 10 ≤ p.magic then
      let (r, g) := g.nextInt
      if 12 ≤ r + p.magic then
        (p, e.take_damage (p.magic * 3 / 2), rw, g)
      else (p, e, rw, g)
    else (p, e, rw, g)

/-- `Combat.player_turn` on one line of input (already read from the
prompt; `prompt` strips it, and with `options=None` it never returns
`None`, so the `if choice is None` re-prompt branch of the source is
unreachable).  Empty input makes `tokens[0]` raise `IndexError`, modelled
as `Except.error`. -/
def Combat.player_turn (input : String) (p : Player) (e : Enemy)
    (rw : List (String × Bool)) (g : RNG) :
    Except String (TurnRes × Player × Enemy × List (String × Bool) × RNG) :=
  let choice := pyStrip input
  match words choice with
  | [] => .error "IndexError: list index out of range (tokens[0])"
  | tok :: rest =>
    let cmd := strLower tok
    if cmd = "attack" then
      let (p, e, g) := Combat.player_attack p e g
      .ok (.normal, p, e, rw, g)
    else if cmd = "defend" then
      .ok (.normal, Combat.player_defend p, e, rw, g)
    else if cmd = "use" then
      match rest with
      | [] => .ok (.normal, p, e, rw, g)
      | _ :: _ =>
        let item_name := joinSpace rest
        match invRemove p.inventory item_name with
        | (none, _) => .ok (.normal, p, e, rw, g)
        | (some it, inv') =>
          let p := { p with inventory := inv' }
          let (p, e) := item_use it p e
          .ok (.normal, p, e, rw, g)
    else if cmd = "inventory" then .ok (.normal, p, e, rw, g)
    else if cmd = "special" then
      let (p, e, rw, g) := Combat.player_special p e rw g
      .ok (.normal, p, e, rw, g)
    else if cmd = "stats" then .ok (.normal, p, e, rw, g)
    else if cmd = "run" then
      let (r1, g) := g.nextInt
      let (r2, g) := g.nextInt
      let chance := r1 + p.agility / 2
      let escape := r2 + e.agility / 2
      if escape < chance then .ok (.escapedRes, p, e, rw, g)
      else .ok (.normal, p, e, rw, g)
    else .ok (.normal, p, e, rw, g)

/-- `Combat.enemy_turn`: skip if the enemy is dead; consume a pending
`enemy_miss_next` rewrite and skip entirely; else with a special-move
table and `roll(100) < 30` fire a uniformly chosen special; else the
standard `attack_player`. -/
def Combat.enemy_turn (p : Player) (e : Enemy)
    (rw : List (String × Bool)) (g : RNG) :
    Player × Enemy × List (String × Bool) × RNG :=
  if e.alive = false then (p, e, rw, g)
  else if (bdictGet rw "enemy_miss_next").getD false then
    (p, e, bdictPop rw "enemy_miss_next", g)
  else if e.special ≠ [] then
    let (c, g) := g.nextInt
    if c < 30 then
      let (p, g) := e.special_move p g
      (p, e, rw, g)
    else
      let (p, g) := e.attack_player p g
      (p, e, rw, g)
  else
    let (p, g) := e.attack_player p g
    (p, e, rw, g)

/-- Terminal results of `Combat.run` (`'player_dead'`, `'enemy_dead'`,
`'escaped'`; `pyNone` is the implicit `None` of the unreachable
both-alive fallthrough after the loop). -/
inductive CombatResult
  | player_dead
  | enemy_dead
  | escapedRes
  | pyNone
deriving DecidableEq, Repr

/-- The code after `Combat.run`'s while loop: defeat check, then victory
rewards — `xp = 20 * difficulty + randint(0, 20)`, `gain_xp`, and a
`roll(100) < 30 * difficulty` chance of a `random.choice` drop from
`['Fear Shard', 'Hope Seed']`. -/
def Combat.post_loop (p : Player) (e : Enemy) (g : RNG) :
    Option (CombatResult × Player × Enemy) :=
  if p.alive = false then some (.player_dead, p, e)
  else if e.alive = false then
    let (r, g) := g.nextInt
    let xpAmt := 20 * e.difficulty + r
    match p.gain_xp xpAmt with
    | none => none
    | some p =>
      let (d, g) := g.nextInt
      if d < 30 * e.difficulty then
        let (c, _) := g.nextInt
        let drop := if c % 2 = 0 then "Fear Shard" else "Hope Seed"
        some (.enemy_dead, { p with inventory := p.inventory ++ [drop] }, e)
      else some (.enemy_dead, p, e)
  else some (.pyNone, p, e)

/-- `Combat.run`: the combat loop, driven by a script of input lines and
the RNG oracle, with fuel bounding the number of iterations.  `none`
models fuel exhaustion or blocking on an exhausted input script; an
uncaught Python exception surfaces as `Except.error`.  Faithful ordering
within one iteration: player turn; immediate return on escape; revert of
the `defend_tmp` agility buff; enemy-dead break; enemy turn; player-dead
break. -/
def Combat.run (fuel : Nat) (script : List String) (p : Player) (e : Enemy)
    (rw : List (String × Bool)) (g : RNG) :
    Option (Except String (CombatResult × Player × Enemy)) :=
  match fuel with
  | 0 => none
  | fuel + 1 =>
    if p.alive && e.alive then
      match script with
      | [] => none
      | input :: script =>
        match Combat.player_turn input p e rw g with
        | .error msg => some (.error msg)
        | .ok (res, p, e, rw, g) =>
          if res = .escapedRes then some (.ok (.escapedRes, p, e))
          else
            let p := if dictContains p.flags "defend_tmp" then
                       { p with
                         agility := (dictGet p.flags "defend_tmp").getD p.agility
                         flags := dictPop p.flags "defend_tmp" }
                     else p
            if e.alive = false then (Combat.post_loop p e g).map .ok
            else
              let (p, e, rw, g) := Combat.enemy_turn p e rw g
              if p.alive = false then (Combat.post_loop p e g).map .ok
              else Combat.run fuel script p e rw g
    else (Combat.post_loop p e g).map .ok

end DreamMarket

deriving instance DecidableEq for Except

namespace DreamMarket

instance : DecidableEq (Player × Enemy × List (String × Bool) × RNG) :=
  inferInstance

instance : DecidableEq (TurnRes × Player × Enemy × List (String × Bool) × RNG) :=
  inferInstance

/-- Modelled from the spec (refinement target for the accuracy claim): the
claimed uniform hit test for BOTH the player's attack and the enemy's
standard attack — attacker hits iff
`d20 + floor(attacker strength / 2) ≥ d20 + floor(defender agility / 2)`,
ties favoring the attacker. -/
def spec_attack_hits (attacker_strength defender_agility r1 r2 : Nat) : Bool :=
  decide (r2 + defender_agility / 2 ≤ r1 + attacker_strength / 2)

/-- Fixture: a freshly created Night Watch player (class-table row
`night_watch`: HP 100, STR 9, AGI 5, MAG 3, sanity 100). -/
def watch0 : Player :=
  { cls := "night_watch", class_name := "Night Watch",
    max_health := 100, health := 100, sanity := 100,
    strength := 9, agility := 5, magic := 3,
    level := 1, xp := 0, inventory := [], alive := true,
    flags := [], class_resource := [] }

/-- Fixture: `watch0` after `gain_xp 250` as the code computes it. -/
def watch250 : Player :=
  { watch0 with level := 2, xp := 150, max_health := 110,
                strength := 10, agility := 6, magic := 4 }

/-- Fixture: `watch0` after `gain_xp 300` as the code computes it. -/
def watch300 : Player :=
  { watch0 with level := 3, xp := 0, max_health := 120,
                strength := 11, agility := 7, magic := 5 }

/-- Fixture: a freshly created Lucid Magician (class-table row
`lucid_magician`: HP 70, STR 4, AGI 7, MAG 12, sanity 90). -/
def lucid0 : Player :=
  { cls := "lucid_magician", class_name := "Lucid Magician",
    max_health := 70, health := 70, sanity := 90,
    strength := 4, agility := 7, magic := 12,
    level := 1, xp := 0, inventory := [], alive := true,
    flags := [], class_resource := [] }

/-- Fixture: a freshly created Insomniac (class-table row `insomniac`:
HP 60, STR 10, AGI 8, MAG 4, sanity 120). -/
def insom0 : Player :=
  { cls := "insomniac", class_name := "Insomniac",
    max_health := 60, health := 60, sanity := 120,
    strength := 10, agility := 8, magic := 4,
    level := 1, xp := 0, inventory := [], alive := true,
    flags := [], class_resource := [] }

/-- Fixture: the Somber Vendor (Moonlit Bazaar; hp 40 in the source, here
at 18 hp remaining so two max-damage hits of a STR-9 player finish it),
with the `snare` special and difficulty 2. -/
def vendor0 : Enemy :=
  { name := "Somber Vendor", hp := 18, max_hp := 40,
    strength := 5, agility := 6, magic := 8, difficulty := 2,
    special := ["snare"], alive := true }

/-- Fixture: a strong but clumsy enemy (strength 10, agility 0), the
stat split that separates the two accuracy formulas. -/
def thug0 : Enemy :=
  { name := "Token Thief", hp := 35, max_hp := 35,
    strength := 10, agility := 0, magic := 3, difficulty := 1,
    special := [], alive := true }

/-- Fixture: a player with agility 0 facing `thug0`. -/
def broker0 : Player :=
  { cls := "broker_novice", class_name := "Broker (Novice)",
    max_health := 80, health := 80, sanity := 100,
    strength := 6, agility := 0, magic := 6,
    level := 1, xp := 0, inventory := [], alive := true,
    flags := [], class_resource := [] }

/-- Fixture: a defending player with agility 6. -/
def defender0 : Player := { watch0 with agility := 6 }

/-- Fixture: a zero-agility, specials-free enemy used to isolate the
defend-buff timing. -/
def brute0 : Enemy :=
  { name := "Sleep-Poltergeist", hp := 50, max_hp := 50,
    strength := 5, agility := 0, magic := 6, difficulty := 2,
    special := [], alive := true }

/-- Fixture: a player at 3 HP. -/
def frail0 : Player := { watch0 with health := 3 }

/-- Fixture: a specials-free enemy that deals 10 base damage. -/
def brawler0 : Enemy :=
  { name := "Sleep-Poltergeist", hp := 45, max_hp := 45,
    strength := 10, agility := 6, magic := 6, difficulty := 2,
    special := [], alive := true }

/-- Fixture: a `rewrite_effects` dict with the one-shot miss flag pending. -/
def pendingRw : List (String × Bool) := [("enemy_miss_next", true)]

/-- C1: `Player.modify_health` clamps the result into `[0, max_health]`
(the lower bound holds by the `Nat` type of `health`), and
`Player.modify_sanity` adds the signed amount with no upper clamp and
forces `alive = false` whenever the resulting sanity is `≤ -50`,
independently of the (positive) health. -/
theorem C1_health_clamp_sanity_death (p : Player) (amt : Int) :
    (p.modify_health amt).health ≤ p.max_health ∧
    (p.modify_sanity amt).sanity = p.sanity + amt ∧
    (0 < p.health → p.sanity + amt ≤ -50 →
      (p.modify_sanity amt).alive = false) := by
  refine ⟨?_, rfl, fun _ hs => ?_⟩
  · show (max 0 (min (p.max_health : Int) ((p.health : Int) + amt))).toNat ≤
      p.max_health
    omega
  · show (if p.sanity + amt ≤ -50 then false else p.alive) = false
    rw [if_pos hs]

/-- Witness for C1: an Insomniac at full (positive) health whose sanity is
driven from 120 to -80 becomes not-alive. -/
theorem C1_health_clamp_sanity_death_witness :
    (insom0.modify_sanity (-200)).alive = false :=
  (C1_health_clamp_sanity_death insom0 (-200)).2.2 (by decide) (by decide)

/-- C2 counterexample: an enemy with strength 10 and agility 0 attacking an
agility-0 player with accuracy die 10 versus evade die 11.  The claimed
strength-based formula predicts a hit (`10 + 5 ≥ 11 + 0`), but
`Enemy.attack_player` misses and leaves the player untouched, because the
enemy's accuracy bonus in the code is `int(self.agility / 2)`, not
strength (`10 + 0 < 11 + 0`).  The third conjunct records that the
agility-based formula explains the observed miss. -/
theorem C2_enemy_accuracy_counterexample :
    spec_attack_hits thug0.strength broker0.agility 10 11 = true ∧
    (Enemy.attack_player thug0 broker0 ⟨[10, 11], [0]⟩).1 = broker0 ∧
    spec_attack_hits thug0.agility broker0.agility 10 11 = false := by decide

/-- Helper: each pass of the `gain_xp` while loop only increments the
level, so the loop never decreases it. -/
theorem gain_xp_loop_level_le (fuel : Nat) : ∀ (p q : Player),
    gain_xp_loop fuel p = some q → p.level ≤ q.level := by
  induction fuel with
  | zero =>
    intro p q h
    unfold gain_xp_loop at h
    split at h
    · exact absurd h (by simp)
    · cases h; exact le_refl _
  | succ n ih =>
    intro p q h
    unfold gain_xp_loop at h
    split at h
    · exact le_trans (Nat.le_succ _) (ih _ _ h)
    · cases h; exact le_refl _

/-- C3 counterexample: granting 250 XP to a fresh level-1 player levels it
exactly once — after the first level-up the remaining 150 XP is below the
new threshold `100 * 2` — yielding level 2, xp 150, +10 max health and +1
to each stat, not the claimed level 3 / +20 / +2 / xp 0. -/
theorem C3_cascade_example_counterexample :
    watch0.gain_xp 250 = some watch250 ∧
    (watch0.gain_xp 250).map Player.level ≠ some 3 := by decide

/-- C3 amended: `gain_xp` never decreases the level; level-ups cascade
while `xp ≥ 100 * level`, each adding +10 max health and +1 to strength,
agility and magic; 250 XP at level 1 yields level 2 with xp 150, and a
genuinely cascading award — 300 XP at level 1 — yields level 3 with
xp 0. -/
theorem C3_gain_xp_mono_cascade (p q : Player) (amount : Nat)
    (h : p.gain_xp amount = some q) :
    p.level ≤ q.level ∧
    watch0.gain_xp 250 = some watch250 ∧
    watch0.gain_xp 300 = some watch300 := by
  refine ⟨?_, by decide, by decide⟩
  unfold Player.gain_xp at h
  exact gain_xp_loop_level_le _ { p with xp := p.xp + amount } q h

/-- Witness for C3 at the concrete 250-XP award. -/
theorem C3_gain_xp_mono_cascade_witness :
    watch0.level ≤ watch250.level ∧
    watch0.gain_xp 250 = some watch250 ∧
    watch0.gain_xp 300 = some watch300 :=
  C3_gain_xp_mono_cascade watch0 watch250 250 (by decide)

/-- C4: the defend buff is reverted BEFORE the enemy acts, not after.  A
player with agility 6 defends; the enemy's accuracy total is 10 and the
player's evade die is 7, so with the +4 boost still up the enemy would
miss (`7 + (6+4)/2 = 12 > 10`), while at base agility it hits
(`7 + 6/2 = 10 ≤ 10`).  Running the cycle, the enemy hits for 5
(health 100 → 95): `Combat.run` pops `defend_tmp` and restores agility
between the player's action and `enemy_turn`, so the boost never covers
the enemy's attack (the escape next cycle then ends the fight with the
base agility 6 in place). -/
theorem C4_defend_reverted_before_enemy_acts :
    ((10 : Nat) < 7 + (defender0.agility + 4) / 2 ∧
      7 + defender0.agility / 2 ≤ 10) ∧
    Combat.run 3 ["defend", "run"] defender0 brute0 [] ⟨[10, 7, 20, 1], [0]⟩ =
      some (.ok (.escapedRes, { defender0 with health := 95 }, brute0)) := by
  decide

/-- C6: the pending one-shot miss flag is indeed consumed by exactly one
enemy turn that skips the enemy's action entirely (first conjunct:
player, enemy and dice untouched, flag popped).  But the special CAN
re-roll while the flag is pending: the guard tests the key `"rewritten"`,
which is never set anywhere (second conjunct), so a Lucid Magician with
the flag pending who uses the special consumes a d20 (here a successful
20) and re-sets the flag instead of being blocked (third conjunct — a
blocked special would have left the die unconsumed). -/
theorem C6_rewrite_guard_checks_wrong_key :
    Combat.enemy_turn lucid0 vendor0 pendingRw ⟨[20], []⟩ =
      (lucid0, vendor0, [], ⟨[20], []⟩) ∧
    bdictContains pendingRw "rewritten" = false ∧
    Combat.player_special lucid0 vendor0 pendingRw ⟨[20], []⟩ =
      (lucid0, vendor0, pendingRw, ⟨[], []⟩) := by decide

/-- C7 counterexample: a combat where the player's only input is
`inventory`.  The claim says viewing the inventory does not consume the
turn and the enemy does not act; in the code the turn IS consumed — the
enemy attacks (hit: `20 + 3 ≥ 1 + 2`) for 10 damage and kills the 3-HP
player, ending the combat as `player_dead` without any re-prompt. -/
theorem C7_view_consumes_turn_counterexample :
    Combat.run 1 ["inventory"] frail0 brawler0 [] ⟨[20, 1], [0]⟩ =
      some (.ok (.player_dead, { frail0 with health := 0, alive := false },
        brawler0)) := by decide

/-- C8 counterexample: death is not reverted by healing.  A player brought
to 0 health (`alive = false`) and then healed by +30 has health 30 > 0
yet remains not-alive: `modify_health` only ever sets `alive` to false,
never re-derives it from `health > 0`. -/
theorem C8_alive_not_rederived_counterexample :
    ((watch0.modify_health (-100)).modify_health 30).health = 30 ∧
    ((watch0.modify_health (-100)).modify_health 30).alive = false := by decide

/-- C8 amended: the `alive` flag is only a one-directional over-
approximation of the derived condition: if a player is alive then
`health > 0` and `sanity > -50` is preserved by every health/sanity
mutation, and similarly for an enemy's `take_damage`; once `alive` is
false no mutation ever restores it (in particular healing from 0 back
above 0 leaves the player not-alive). -/
theorem C8_alive_one_directional (p : Player) (e : Enemy) (amt : Int) (d : Nat)
    (hp : p.alive = true → 0 < p.health ∧ -50 < p.sanity) :
    ((p.modify_health amt).alive = true →
      0 < (p.modify_health amt).health ∧ -50 < (p.modify_health amt).sanity) ∧
    ((p.modify_sanity amt).alive = true →
      0 < (p.modify_sanity amt).health ∧ -50 < (p.modify_sanity amt).sanity) ∧
    (p.alive = false →
      (p.modify_health amt).alive = false ∧
      (p.modify_sanity amt).alive = false) ∧
    ((e.take_damage d).alive = true → 0 < (e.take_damage d).hp) ∧
    (e.alive = false → (e.take_damage d).alive = false) := by
  have hh : (p.modify_health amt).health =
      (max 0 (min (p.max_health : Int) ((p.health : Int) + amt))).toNat := rfl
  have ha : (p.modify_health amt).alive =
      (if (max 0 (min (p.max_health : Int) ((p.health : Int) + amt))).toNat = 0
       then false else p.alive) := rfl
  have hsn : (p.modify_health amt).sanity = p.sanity := rfl
  have sa : (p.modify_sanity amt).alive =
      (if p.sanity + amt ≤ -50 then false else p.alive) := rfl
  have ss : (p.modify_sanity amt).sanity = p.sanity + amt := rfl
  have sh : (p.modify_sanity amt).health = p.health := rfl
  have th : (e.take_damage d).hp = e.hp - d := rfl
  have ta : (e.take_damage d).alive =
      (if e.hp - d = 0 then false else e.alive) := rfl
  refine ⟨?_, ?_, ?_, ?_, ?_⟩
  · intro h
    rw [ha] at h
    rw [hh, hsn]
    by_cases h0 :
        (max 0 (min (p.max_health : Int) ((p.health : Int) + amt))).toNat = 0
    · rw [if_pos h0] at h; exact absurd h (by simp)
    · rw [if_neg h0] at h
      exact ⟨Nat.pos_of_ne_zero h0, (hp h).2⟩
  · intro h
    rw [sa] at h
    rw [sh, ss]
    by_cases h0 : p.sanity + amt ≤ -50
    · rw [if_pos h0] at h; exact absurd h (by simp)
    · rw [if_neg h0] at h
      exact ⟨(hp h).1, by omega⟩
  · intro h
    refine ⟨?_, ?_⟩
    · rw [ha, h]; split <;> rfl
    · rw [sa, h]; split <;> rfl
  · intro h
    rw [ta] at h
    rw [th]
    by_cases h0 : e.hp - d = 0
    · rw [if_pos h0] at h; exact absurd h (by simp)
    · rw [if_neg h0] at h; omega
  · intro h
    rw [ta, h]; split <;> rfl

/-- Witness for C8 at a concrete alive player taking 10 damage. -/
theorem C8_alive_one_directional_witness :
    0 < (watch0.modify_health (-10)).health ∧
    -50 < (watch0.modify_health (-10)).sanity :=
  (C8_alive_one_directional watch0 vendor0 (-10) 3 (by decide)).1 (by decide)

/-- C9: empty (or all-whitespace) input during the player's combat turn
crashes: `tokens = choice.split()` is empty and `tokens[0]` raises
`IndexError`, contradicting the claim that no exception arises from any
input string; every other token stream takes a narrated no-op path. -/
theorem C9_empty_input_index_error (p : Player) (e : Enemy)
    (rw : List (String × Bool)) (g : RNG) :
    Combat.player_turn "" p e rw g =
      .error "IndexError: list index out of range (tokens[0])" ∧
    Combat.player_turn "   " p e rw g =
      .error "IndexError: list index out of range (tokens[0])" :=
  ⟨rfl, rfl⟩

/-- C10: `dream_snare` lowers the player's agility by 2, floored at 1, and
the reduction survives the end of combat: in a full `Combat.run` in which
the snare fires once and the player then wins (with an XP award of 40,
below the level-up threshold, so the reward phase does not touch
agility), the returned player still has agility `5 - 2 = 3` — nothing in
the post-combat code restores it, so it carries into later encounters. -/
theorem C10_snare_floor_and_persistence (e : Enemy) (p : Player) :
    1 ≤ (dream_snare e p).agility ∧
    (3 ≤ p.agility → (dream_snare e p).agility = p.agility - 2) ∧
    (p.agility < 3 → (dream_snare e p).agility = 1) ∧
    (dream_snare e p).health = p.health ∧
    (dream_snare e p).alive = p.alive ∧
    Combat.run 3 ["attack", "attack"] watch0 vendor0 []
        ⟨[20, 1, 10, 0, 20, 1, 0, 100], [0, 0]⟩ =
      some (.ok (.enemy_dead, { watch0 with agility := 3, xp := 40 },
        { vendor0 with hp := 0, alive := false })) := by
  refine ⟨?_, fun h => ?_, fun h => ?_, rfl, rfl, by decide⟩
  · show 1 ≤ max 1 (p.agility - 2)
    omega
  · show max 1 (p.agility - 2) = p.agility - 2
    omega
  · show max 1 (p.agility - 2) = 1
    omega

/-- Witness for C10 at the Somber Vendor snaring the agility-5 player. -/
theorem C10_snare_floor_and_persistence_witness :
    (dream_snare vendor0 watch0).agility = watch0.agility - 2 :=
  (C10_snare_floor_and_persistence vendor0 watch0).2.1 (by decide)

/-- C2 amended: for every pair of dice, the player's attack hits iff
`d20 + floor(strength/2) ≥ d20 + floor(enemy agility/2)` (ties hit, and a
hit applies the damage roll), but the enemy's standard attack uses the
ENEMY'S AGILITY as its accuracy bonus: it hits iff
`d20 + floor(enemy agility/2) ≥ d20 + floor(player agility/2)` (ties
hit); the two attacks share only the shape of the formula, with the
attacker stat being strength for the player and agility for the enemy.
(The non-Lucid hypothesis fixes the hit-branch shape; the accuracy
condition itself does not depend on the class.) -/
theorem C2_attack_accuracy_corrected (p : Player) (e : Enemy)
    (r1 r2 k : Nat) (is ks : List Nat)
    (hnl : strStarts (strLower p.class_name) "lucid" = false) :
    (r2 + p.agility / 2 ≤ r1 + e.agility / 2 →
      Enemy.attack_player e p ⟨r1 :: r2 :: is, k :: ks⟩ =
        (p.modify_health (-(dmg_base e.strength k : Int)), ⟨is, ks⟩)) ∧
    (r1 + e.agility / 2 < r2 + p.agility / 2 →
      Enemy.attack_player e p ⟨r1 :: r2 :: is, k :: ks⟩ =
        (p, ⟨is, k :: ks⟩)) ∧
    (r2 + e.agility / 2 ≤ r1 + p.strength / 2 →
      Combat.player_attack p e ⟨r1 :: r2 :: is, k :: ks⟩ =
        (p, e.take_damage (dmg_base p.strength k), ⟨is, ks⟩)) ∧
    (r1 + p.strength / 2 < r2 + e.agility / 2 →
      Combat.player_attack p e ⟨r1 :: r2 :: is, k :: ks⟩ =
        (p, e, ⟨is, k :: ks⟩)) := by
  have hE : Enemy.attack_player e p ⟨r1 :: r2 :: is, k :: ks⟩ =
      if r2 + p.agility / 2 ≤ r1 + e.agility / 2 then
        (p.modify_health (-(dmg_base e.strength k : Int)), ⟨is, ks⟩)
      else (p, ⟨is, k :: ks⟩) := rfl
  have hP : Combat.player_attack p e ⟨r1 :: r2 :: is, k :: ks⟩ =
      if r2 + e.agility / 2 ≤ r1 + p.strength / 2 then
        (if strStarts (strLower p.class_name) "lucid" = true then
          (p, e.take_damage (if is.headD 1 < 20
              then dmg_base p.strength k * 9 / 5 else dmg_base p.strength k),
           ⟨is.tail, ks⟩)
        else (p, e.take_damage (dmg_base p.strength k), ⟨is, ks⟩))
      else (p, e, ⟨is, k :: ks⟩) := rfl
  refine ⟨fun h => ?_, fun h => ?_, fun h => ?_, fun h => ?_⟩
  · rw [hE, if_pos h]
  · rw [hE, if_neg (by omega)]
  · rw [hP, if_pos h, hnl]
    simp
  · rw [hP, if_neg (by omega)]

/-- Witness for C2 at concrete dice: the Somber Vendor's attack on the
Night Watch player with dice 20 versus 1 hits and applies the zero-factor
damage roll. -/
theorem C2_attack_accuracy_corrected_witness :
    Enemy.attack_player vendor0 watch0 ⟨[20, 1], [0]⟩ =
      (watch0.modify_health (-(dmg_base vendor0.strength 0 : Int)),
       ⟨[], []⟩) :=
  (C2_attack_accuracy_corrected watch0 vendor0 20 1 0 [] []
    (by decide)).1 (by decide)

/-- C5: an escape attempt resolves as
`d20 + floor(player agility/2) > d20 + floor(enemy agility/2)` — strictly,
so equal totals fail — and a successful attempt makes `Combat.run` return
`escapedRes` immediately, with the player and enemy untouched: the enemy
does not act in that cycle. -/
theorem C5_escape_strict_and_preempts_enemy (p : Player) (e : Enemy)
    (rw : List (String × Bool)) (r1 r2 : Nat) (is ks : List Nat)
    (script : List String) (fuel : Nat)
    (hp : p.alive = true) (he : e.alive = true) :
    Combat.player_turn "run" p e rw ⟨r1 :: r2 :: is, ks⟩ =
      .ok (if r2 + e.agility / 2 < r1 + p.agility / 2 then TurnRes.escapedRes
           else TurnRes.normal, p, e, rw, ⟨is, ks⟩) ∧
    (r2 + e.agility / 2 < r1 + p.agility / 2 →
      Combat.run (fuel + 1) ("run" :: script) p e rw ⟨r1 :: r2 :: is, ks⟩ =
        some (.ok (.escapedRes, p, e))) := by
  have hEq : Combat.player_turn "run" p e rw ⟨r1 :: r2 :: is, ks⟩ =
      if r2 + e.agility / 2 < r1 + p.agility / 2 then
        .ok (.escapedRes, p, e, rw, ⟨is, ks⟩)
      else .ok (.normal, p, e, rw, ⟨is, ks⟩) := rfl
  constructor
  · rw [hEq]
    by_cases h : r2 + e.agility / 2 < r1 + p.agility / 2
    · rw [if_pos h, if_pos h]
    · rw [if_neg h, if_neg h]
  · intro h
    have hpt : Combat.player_turn "run" p e rw ⟨r1 :: r2 :: is, ks⟩ =
        .ok (.escapedRes, p, e, rw, ⟨is, ks⟩) := by
      rw [hEq, if_pos h]
    simp only [Combat.run, hp, he, Bool.and_self, if_true, hpt]

/-- Witness for C5: dice 20 versus 1 at equal bonuses escape; `Combat.run`
ends immediately with the untouched combatants. -/
theorem C5_escape_strict_and_preempts_enemy_witness :
    Combat.run 1 ["run"] watch0 brute0 [] ⟨[20, 1], []⟩ =
      some (.ok (.escapedRes, watch0, brute0)) :=
  (C5_escape_strict_and_preempts_enemy watch0 brute0 [] 20 1 [] [] [] 0
    rfl rfl).2 (by decide)

/-- C7 amended: `inventory`, `stats` and unrecognized input (here `look`)
DO consume the player's turn: `player_turn` returns a plain `None`-result
with the state unchanged, and the `Combat.run` cycle proceeds directly to
the enemy's action in the same iteration — there is no re-prompt (the
source's `if choice is None` re-prompt branch is unreachable because the
combat prompt is called with `options=None`). -/
theorem C7_nonaction_inputs_consume_turn (p : Player) (e : Enemy)
    (rw : List (String × Bool)) (g : RNG) (fuel : Nat) (script : List String)
    (input : String)
    (hin : input = "inventory" ∨ input = "stats" ∨ input = "look")
    (hp : p.alive = true) (he : e.alive = true)
    (hf : dictContains p.flags "defend_tmp" = false) :
    Combat.run (fuel + 1) (input :: script) p e rw g =
      (match Combat.enemy_turn p e rw g with
       | (p', e', rw', g') =>
         if p'.alive = false then (Combat.post_loop p' e' g').map .ok
         else Combat.run fuel script p' e' rw' g') := by
  have hpt : Combat.player_turn input p e rw g =
      .ok (.normal, p, e, rw, g) := by
    rcases hin with h | h | h <;> subst h <;> rfl
  simp only [Combat.run, hp, he, Bool.and_self, if_true, hpt, hf]
  simp [he]

/-- Witness for C7: after the lone `inventory` input the enemy acts at
once and the cycle result is exactly the enemy-turn continuation. -/
theorem C7_nonaction_inputs_consume_turn_witness :
    Combat.run 1 ["inventory"] frail0 brawler0 [] ⟨[20, 1], [0]⟩ =
      (match Combat.enemy_turn frail0 brawler0 [] ⟨[20, 1], [0]⟩ with
       | (p', e', rw', g') =>
         if p'.alive = false then (Combat.post_loop p' e' g').map .ok
         else Combat.run 0 [] p' e' rw' g') :=
  C7_nonaction_inputs_consume_turn frail0 brawler0 [] ⟨[20, 1], [0]⟩ 0 []
    "inventory" (Or.inl rfl) rfl rfl rfl

end DreamMarket
